import Mathlib

/-!
Shallow embedding of the three Python scripts of the ModernCppExamples
repository — `SearchAnagramsFromDictionary.py`, `scripts/update_documentation.py`
and `test_pybind.py` — together with theorems settling the specification
claims about them.

File contents and Python strings are modelled as `List Char` or `String`
(Python `str` indices are code-point indices, matching `List Char`
positions).  Reading and writing a file are modelled by passing the content
in and returning the written content.
-/

/-! ## Definitions: SearchAnagramsFromDictionary.py -/

/-- The fixed word list `mDictionary` (lines 1-7 of SearchAnagramsFromDictionary.py). -/
def mDictionary : List String :=
  ["act", "ant", "art", "bat", "bet", "boss", "cat",
   "cap", "cop", "dear", "dog", "dip",
   "ear", "end", "eel", "fad", "fat", "fog", "gap", "god",
   "hat", "hit", "hot", "ink", "irk",
   "jot", "jab", "lap", "lip", "lot", "man", "nan", "nat",
   "net", "pat", "pet", "tap", "tar", "ten",
   "rat", "woo", "yoo", "zoo"]

/-- Python `''.join(sorted(x))`: the characters of `x` in ascending code-point
order, rejoined into a string.  Python `sorted` is a stable ascending sort;
on characters insertion sort produces the same list. -/
def sig (x : String) : String :=
  ⟨List.insertionSort (fun a b : Char => a ≤ b) x.data⟩

/-- `Pairs = {x: ''.join(sorted(x)) for x in mDictionary}` (line 9), as an
association list in insertion order (`mDictionary` has no duplicate words,
so each word contributes one entry, in list order). -/
def Pairs : List (String × String) :=
  mDictionary.map (fun x => (x, sig x))

/-- Python `m.setdefault(v, []).append(k)` on an insertion-ordered association
list: append `k` to the list stored under `v`, creating the entry `(v, [k])`
at the end when `v` is not yet a key. -/
def setdefaultAppend (m : List (String × List String)) (v k : String) :
    List (String × List String) :=
  if m.any (fun p => p.1 = v) then
    m.map (fun p => if p.1 = v then (p.1, p.2 ++ [k]) else p)
  else m ++ [(v, [k])]

/-- The `Anagrams` dictionary built by the loop at lines 16-19: for each
`(k, v)` of `Pairs` in order, if `v` is a dictionary word, append `k` to the
group of `v`. -/
def Anagrams : List (String × List String) :=
  Pairs.foldl
    (fun m kv => if kv.2 ∈ mDictionary then setdefaultAppend m kv.2 kv.1 else m)
    []

/-- The character `0x27` (single quote), used by Python `repr` of a string. -/
def quoteChar : Char := Char.ofNat 39

/-- Python `repr` of one of the dictionary words (no escaping is ever needed:
the words are plain ASCII letters). -/
def pyReprStr (s : String) : String :=
  String.singleton quoteChar ++ s ++ String.singleton quoteChar

/-- Python `repr` of a list of such strings, as printed by `print(k, v)`. -/
def pyReprStrList (xs : List String) : String :=
  "[" ++ String.intercalate ", " (xs.map pyReprStr) ++ "]"

/-- The standard-output lines of SearchAnagramsFromDictionary.py, one string
per printed line (lines 11-23). -/
def anagramScriptOutput : List String :=
  ["----------Print Items In Dictionary \"Pairs\":---------------------"]
  ++ Pairs.map (fun p => p.1 ++ " " ++ p.2)
  ++ ["----------Find Keys With Same Values ---------------------"]
  ++ ["----------Print \"Annagrams\":---------------------"]
  ++ Anagrams.map (fun p => p.1 ++ " " ++ pyReprStrList p.2)

/-- A printed line that labels a section: the three `print` calls at lines
11, 15 and 21 all emit lines starting with ten dashes. -/
def isLabelLine (l : String) : Bool :=
  "----------".data.isPrefixOf l.data

/-! ## Definitions: scripts/update_documentation.py -/

/-- Auxiliary scan for Python `str.find`: the first index `≥ i` at which
`needle` occurs, scanning `hay` left to right. -/
def strFindAux (needle : List Char) : List Char → Nat → Option Nat
  | [], i => if needle.isPrefixOf ([] : List Char) then some i else none
  | c :: t, i =>
    if needle.isPrefixOf (c :: t) then some i else strFindAux needle t (i + 1)

/-- Python `hay.find(needle)`: index of the first occurrence of `needle` in
`hay`, or `none` for Python's `-1`. -/
def strFind (hay needle : List Char) : Option Nat :=
  strFindAux needle hay 0

/-- The literal start marker of line 121. -/
def startMarker : List Char :=
  "## 📋 **Complete Examples - Alphabetical Reference**".data

/-- The literal end marker of line 122. -/
def endMarker : List Char :=
  "## 🏗️ **Project Structure**".data

/-- The literal separator `"\n---\n\n"` spliced in at line 138. -/
def sectionSep : List Char := "\n---\n\n".data

/-- `update_readme` (lines 113-151) on the README content: find the first
occurrences of the two markers; if either is absent report failure without
writing; otherwise write the prefix before the start marker, the freshly
generated section (`newSection`, the result of
`generate_alphabetical_section`, left abstract since its value does not
affect the splicing), the separator, and the text from the end marker on.
`none` models "returned False without writing"; `some c` models "wrote `c`
and returned True". -/
def update_readme (content newSection : List Char) : Option (List Char) :=
  match strFind content startMarker, strFind content endMarker with
  | some s, some e =>
    some (content.take s ++ newSection ++ sectionSep ++ content.drop e)
  | _, _ => none

/-- Filesystem state seen by `main` (lines 212-289): whether the `src`
directory and `README.md` exist, and the README content. -/
structure FsEnv where
  srcExists : Bool
  readmeExists : Bool
  readme : List Char

/-- The exit code of `main` (lines 224-250 and 286): 1 when the `src`
directory is missing, 1 when `README.md` is missing, 1 when `update_readme`
fails, and otherwise 0 (the template file write and the summary printing at
lines 252-284 cannot change the code). -/
def main_exit (env : FsEnv) (newSection : List Char) : Nat :=
  if env.srcExists = false then 1
  else if env.readmeExists = false then 1
  else
    match update_readme env.readme newSection with
    | some _ => 0
    | none => 1

/-- Python string comparison (less or equal), lexicographic on code points. -/
def listCharLe : List Char → List Char → Bool
  | [], _ => true
  | _ :: _, [] => false
  | a :: as, b :: bs =>
    if a < b then true else if b < a then false else listCharLe as bs

/-- Python `a <= b` on strings, as a proposition. -/
def pyStrLe (a b : String) : Prop := listCharLe a.data b.data = true

instance (a b : String) : Decidable (pyStrLe a b) :=
  inferInstanceAs (Decidable (listCharLe a.data b.data = true))

/-- Python `name.lower()` for the ASCII filenames involved. -/
def lowerName (s : String) : List Char := s.data.map Char.toLower

/-- The sort key `p.name.lower()` of line 69, as a comparison. -/
def lowerKeyLe (a b : String) : Prop :=
  listCharLe (lowerName a) (lowerName b) = true

instance (a b : String) : Decidable (lowerKeyLe a b) :=
  inferInstanceAs (Decidable (listCharLe (lowerName a) (lowerName b) = true))

/-- Python `name.endswith(suffix)` (the effect of the `*.cpp` / `*.cppm`
globs on filenames). -/
def strEndsWith (s suffix : String) : Bool :=
  suffix.data.isSuffixOf s.data

/-- `get_all_source_files` (lines 61-71) restricted to the filenames it
returns: the `*.cpp` glob, then the `*.cppm` glob, sorted by lowercased
name (Python `sort` is stable, as is insertion sort; `dir` is the
directory listing). -/
def get_all_source_files (dir : List String) : List String :=
  List.insertionSort lowerKeyLe
    (dir.filter (fun n => strEndsWith n ".cpp")
      ++ dir.filter (fun n => strEndsWith n ".cppm"))

/-- A word character of the regex `\w` at line 164 (the filenames involved
are ASCII). -/
def isWordChar (c : Char) : Bool := c.isAlphanum || c = '_'

/-- Matching the tail of the regex `\[(\w+\.(?:cpp|cppm))\]` after its
opening bracket: a nonempty greedy run of word characters, a dot, then
`cpp]` or (on backtracking) `cppm]`.  Returns the captured filename and the
rest of the text after the match. -/
def matchBracketTail (rest : List Char) : Option (List Char × List Char) :=
  let w := rest.takeWhile isWordChar
  let r1 := rest.dropWhile isWordChar
  if w.isEmpty then none
  else
    match r1 with
    | '.' :: r2 =>
      if "cpp]".data.isPrefixOf r2 then some (w ++ ".cpp".data, r2.drop 4)
      else if "cppm]".data.isPrefixOf r2 then some (w ++ ".cppm".data, r2.drop 5)
      else none
    | _ => none

/-- Left-to-right non-overlapping scan of `re.findall`: on a successful
match continue after it, on a failure advance one character.  The fuel is
the length of the scanned text, which bounds the number of steps. -/
def findBracketedAux : Nat → List Char → List (List Char)
  | 0, _ => []
  | _ + 1, [] => []
  | fuel + 1, c :: rest =>
    if c = '[' then
      match matchBracketTail rest with
      | some (name, rest2) => name :: findBracketedAux fuel rest2
      | none => findBracketedAux fuel rest
    else findBracketedAux fuel rest

/-- `re.findall(r'\[(\w+\.(?:cpp|cppm))\]', readme_content)` at line 164:
the bracketed source-file links of the README text. -/
def findBracketed (content : List Char) : List String :=
  (findBracketedAux content.length content).map (fun l => String.mk l)

/-- `check_new_files` (lines 153-173): the set of source filenames minus the
set of filenames bracket-linked in the README, returned `sorted` (Python
sorting of strings is code-point lexicographic).  Sets are modelled by
deduplication. -/
def check_new_files (dir : List String) (readme : List Char) : List String :=
  List.insertionSort pyStrLe
    (((get_all_source_files dir).dedup).filter
      (fun n => ¬ n ∈ findBracketed readme))

/-- A README content containing both markers, used as witness input. -/
def demoReadme : List Char :=
  startMarker ++ "\nOld body\n".data ++ endMarker ++ "\nTail".data

/-- A README content in which the end marker (at 0) precedes the start
marker (at 30), used as witness input. -/
def demoReadmeRev : List Char :=
  endMarker ++ "\nX\n".data ++ startMarker ++ "\nTail".data

/-! ## Definitions: test_pybind.py

The native module `pybind_example` and `numpy` are opaque external
collaborators; the embedding records which of the two imports succeed and
models the demonstration calls (which the script treats as total) by the
section headers they print. -/

/-- The section headers printed by a successful run of test_pybind.py; the
numpy section (lines 171-207) depends on whether `numpy` imports. -/
def test_pybind_output (numpyOk : Bool) : List String :=
  ["PYBIND11 EXAMPLE - C++ AND PYTHON INTEROPERABILITY",
   "1. SIMPLE FUNCTIONS (Python calling C++):",
   "2. STL CONTAINERS (automatic conversion):",
   "3. CLASSES (C++ objects in Python):",
   "4. INHERITANCE (polymorphism):",
   "5. CALLBACKS (C++ calling Python functions!):",
   "6. SENSOR DATA PROCESSING (embedded example):"]
  ++ (if numpyOk then ["7. NUMPY ARRAYS (high performance!):"]
      else ["7. NUMPY ARRAYS:", "NumPy not installed - skipping NumPy examples",
            "Install with: pip install numpy"])
  ++ ["8. SMART POINTERS (automatic memory management):", "ALL TESTS PASSED!"]

/-- `main` of test_pybind.py (lines 10-227): exit status and printed lines
as a function of whether `pybind_example` and `numpy` import successfully.
An import failure of the native module prints the build hint and exits
with 1 (lines 13-20); otherwise the demonstrations run and the process
ends with 0. -/
def test_pybind_run (pybindOk numpyOk : Bool) : Nat × List String :=
  if pybindOk then (0, test_pybind_output numpyOk)
  else (1, ["ERROR: pybind_example module not found!", "Build it first with:"])

/-! ## Helper lemmas -/

lemma strFindAux_le (needle : List Char) :
    ∀ (hay : List Char) (i j : Nat), strFindAux needle hay i = some j → j ≤ i + hay.length := by
  intro hay
  induction hay with
  | nil =>
    intro i j h
    simp only [strFindAux] at h
    split at h <;> simp_all
  | cons c t ih =>
    intro i j h
    simp only [strFindAux] at h
    split at h
    · simp_all
    · have := ih (i + 1) j h
      simp only [List.length_cons]
      omega

/-- A found index is within the text. -/
lemma strFind_le {hay needle : List Char} {j : Nat}
    (h : strFind hay needle = some j) : j ≤ hay.length := by
  have := strFindAux_le needle hay 0 j h
  omega

/-- Unfolding of `update_readme` when both markers are present. -/
lemma update_readme_eq (content newSection : List Char) (s e : Nat)
    (hs : strFind content startMarker = some s)
    (he : strFind content endMarker = some e) :
    update_readme content newSection =
      some (content.take s ++ newSection ++ sectionSep ++ content.drop e) := by
  unfold update_readme
  rw [hs, he]

/-- Unfolding of `update_readme` to `none` exactly when a marker is absent. -/
lemma update_readme_none_iff (content newSection : List Char) :
    update_readme content newSection = none ↔
      (strFind content startMarker = none ∨ strFind content endMarker = none) := by
  unfold update_readme
  cases strFind content startMarker <;> cases strFind content endMarker <;> simp

lemma listCharLe_total : ∀ (a b : List Char), listCharLe a b = true ∨ listCharLe b a = true
  | [], _ => Or.inl (by simp [listCharLe])
  | _ :: _, [] => Or.inr (by simp [listCharLe])
  | a :: as, b :: bs => by
    rcases lt_trichotomy a b with h | h | h
    · left
      simp [listCharLe, h]
    · subst h
      rcases listCharLe_total as bs with ih | ih
      · left
        simp [listCharLe, lt_irrefl, ih]
      · right
        simp [listCharLe, lt_irrefl, ih]
    · right
      simp [listCharLe, h]

lemma listCharLe_trans : ∀ (a b c : List Char),
    listCharLe a b = true → listCharLe b c = true → listCharLe a c = true
  | [], _, _, _, _ => by simp [listCharLe]
  | _ :: _, [], _, h1, _ => by simp [listCharLe] at h1
  | _ :: _, _ :: _, [], _, h2 => by simp [listCharLe] at h2
  | a :: as, b :: bs, c :: cs, h1, h2 => by
    simp only [listCharLe] at h1 h2 ⊢
    rcases lt_trichotomy a b with hab | hab | hab
    · rcases lt_trichotomy b c with hbc | hbc | hbc
      · simp [lt_trans hab hbc]
      · subst hbc
        simp [hab]
      · have hnbc : ¬ b < c := asymm hbc
        simp [hnbc, hbc] at h2
    · subst hab
      simp only [lt_irrefl, if_false] at h1
      rcases lt_trichotomy a c with hac | hac | hac
      · simp [hac]
      · subst hac
        simp only [lt_irrefl, if_false] at h2 ⊢
        exact listCharLe_trans as bs cs h1 h2
      · have hnac : ¬ a < c := asymm hac
        simp [hnac, hac] at h2
    · have hnab : ¬ a < b := asymm hab
      simp [hnab, hab] at h1

instance : IsTotal String pyStrLe :=
  ⟨fun a b => listCharLe_total a.data b.data⟩

instance : IsTrans String pyStrLe :=
  ⟨fun a b c h1 h2 => listCharLe_trans a.data b.data c.data h1 h2⟩

/-! ## Claim theorems -/

/-- C1: two dictionary words appear in a common group list of `Anagrams` if
and only if their sorted-character signatures are equal and that common
signature is itself an element of `mDictionary`. -/
theorem anagrams_group_iff :
    ∀ w1 ∈ mDictionary, ∀ w2 ∈ mDictionary,
      ((∃ p ∈ Anagrams, w1 ∈ p.2 ∧ w2 ∈ p.2) ↔
        (sig w1 = sig w2 ∧ sig w1 ∈ mDictionary)) := by
  decide

/-- Witness for C1 at the pair "act", "cat". -/
theorem anagrams_group_iff_witness :
    ("act" ∈ mDictionary) ∧ ("cat" ∈ mDictionary) ∧
      ((∃ p ∈ Anagrams, "act" ∈ p.2 ∧ "cat" ∈ p.2) ↔
        (sig "act" = sig "cat" ∧ sig "act" ∈ mDictionary)) :=
  ⟨by decide, by decide, anagrams_group_iff "act" (by decide) "cat" (by decide)⟩

/-- C2: whenever both markers occur in the README content, `update_readme`
writes a file whose first `s` characters (the text strictly before the
first occurrence of the start marker) and whose characters from position
`s + |newSection| + |sectionSep|` on (the text from the first occurrence of
the end marker onward) are byte-identical to the input; only the span
between the two positions is replaced. -/
theorem update_readme_frame (content newSection : List Char) (s e : Nat)
    (hs : strFind content startMarker = some s)
    (he : strFind content endMarker = some e) :
    ∃ out, update_readme content newSection = some out ∧
      out.take s = content.take s ∧
      out.drop (s + (newSection.length + sectionSep.length)) = content.drop e := by
  have hsl : (content.take s).length = s := by
    rw [List.length_take]
    exact min_eq_left (strFind_le hs)
  refine ⟨_, update_readme_eq content newSection s e hs he, ?_, ?_⟩
  · rw [List.append_assoc, List.append_assoc]
    exact List.take_left' hsl
  · apply List.drop_left'
    simp [hsl, Nat.add_assoc]

/-- Witness for C2 on `demoReadme` (start marker at 0, end marker at 61). -/
theorem update_readme_frame_witness :
    ∃ out, update_readme demoReadme "NEW".data = some out ∧
      out.take 0 = demoReadme.take 0 ∧
      out.drop (0 + (("NEW".data).length + sectionSep.length)) = demoReadme.drop 61 :=
  update_readme_frame demoReadme "NEW".data 0 61 (by decide) (by decide)

/-- C3: `update_readme` performs no write and reports failure exactly when
the start marker or the end marker does not occur in the README content;
no other condition on the content is checked. -/
theorem update_readme_error_iff (content newSection : List Char) :
    update_readme content newSection = none ↔
      (strFind content startMarker = none ∨ strFind content endMarker = none) :=
  update_readme_none_iff content newSection

/-- C4, counterexample: the script does not print exactly two labeled
section lines on standard output. -/
theorem anagram_output_not_two_labels :
    ¬ anagramScriptOutput.countP (fun l => isLabelLine l) = 2 := by
  decide

/-- C4, amended: the script prints exactly three labeled section lines on
standard output (the "Pairs" listing header, the "Find Keys With Same
Values" separator, and the "Annagrams" listing header). -/
theorem anagram_output_three_labels :
    anagramScriptOutput.countP (fun l => isLabelLine l) = 3 := by
  decide

/-- C5: `main` exits with 0 or 1, and exits with 1 exactly when the src
directory is missing, README.md is missing, or a section marker is missing
from the README content. -/
theorem main_exit_spec (env : FsEnv) (newSection : List Char) :
    (main_exit env newSection = 0 ∨ main_exit env newSection = 1) ∧
    (main_exit env newSection = 1 ↔
      (env.srcExists = false ∨ env.readmeExists = false ∨
        strFind env.readme startMarker = none ∨
        strFind env.readme endMarker = none)) := by
  obtain ⟨se, re, rd⟩ := env
  unfold main_exit update_readme
  cases se <;> cases re <;>
    cases h1 : strFind rd startMarker <;>
    cases h2 : strFind rd endMarker <;>
    simp_all

/-- C6: the smoke test exits with 1 exactly when the native module fails to
import, with 0 otherwise, and the availability of numpy never changes the
exit status. -/
theorem test_pybind_exit_spec (pybindOk numpyOk : Bool) :
    ((test_pybind_run pybindOk numpyOk).1 = 1 ↔ pybindOk = false) ∧
    ((test_pybind_run pybindOk numpyOk).1 = 0 ↔ pybindOk = true) ∧
    (test_pybind_run pybindOk numpyOk).1 = (test_pybind_run pybindOk true).1 := by
  cases pybindOk <;> cases numpyOk <;> simp [test_pybind_run]

/-- C7: `check_new_files` returns exactly the alphabetically sorted set
difference of the directory's `.cpp`/`.cppm` filenames minus the filenames
referenced as bracketed links in the README text: the result is sorted,
duplicate-free, and contains a name exactly when it is a `.cpp`/`.cppm`
name of the directory not bracket-linked in the README. -/
theorem check_new_files_spec (dir : List String) (readme : List Char) :
    List.Sorted pyStrLe (check_new_files dir readme) ∧
    (check_new_files dir readme).Nodup ∧
    ∀ x, x ∈ check_new_files dir readme ↔
      (x ∈ dir ∧ (strEndsWith x ".cpp" = true ∨ strEndsWith x ".cppm" = true) ∧
        ¬ x ∈ findBracketed readme) := by
  refine ⟨List.sorted_insertionSort pyStrLe _, ?_, ?_⟩
  · exact ((List.perm_insertionSort pyStrLe _).nodup_iff).mpr
      ((List.nodup_dedup _).filter _)
  · intro x
    simp only [check_new_files, List.mem_insertionSort, List.mem_filter,
      List.mem_dedup, get_all_source_files, List.mem_append, decide_eq_true_eq]
    tauto

/-- C8: every dictionary word has exactly one entry in `Pairs`, and the
signature stored there is a sorted permutation of the word's characters
(hence uniquely determined by the word: the construction is deterministic). -/
theorem pairs_signature_unique :
    ∀ w ∈ mDictionary,
      ((Pairs.filter (fun p => p.1 = w)).length = 1 ∧
        ∀ p ∈ Pairs, p.1 = w →
          (List.Sorted (fun a b : Char => a ≤ b) p.2.data ∧
            p.2.data.Perm w.data)) := by
  decide

/-- Witness for C8 at the word "dear". -/
theorem pairs_signature_unique_witness :
    ("dear" ∈ mDictionary) ∧
      ((Pairs.filter (fun p => p.1 = "dear")).length = 1 ∧
        ∀ p ∈ Pairs, p.1 = "dear" →
          (List.Sorted (fun a b : Char => a ≤ b) p.2.data ∧
            p.2.data.Perm ("dear" : String).data)) :=
  ⟨by decide, pairs_signature_unique "dear" (by decide)⟩

/-- C9: every key of `Anagrams` is a fixed point of the sorting transform,
is itself a dictionary word, and appears in its own group list. -/
theorem anagrams_keys_invariant :
    ∀ p ∈ Anagrams, sig p.1 = p.1 ∧ p.1 ∈ mDictionary ∧ p.1 ∈ p.2 := by
  decide

/-- Witness for C9 at the key "art" with its group. -/
theorem anagrams_keys_invariant_witness :
    (("art", ["art", "tar", "rat"]) ∈ Anagrams) ∧
      (sig "art" = "art" ∧ "art" ∈ mDictionary ∧ "art" ∈ ["art", "tar", "rat"]) :=
  ⟨by decide, anagrams_keys_invariant ("art", ["art", "tar", "rat"]) (by decide)⟩

/-- C10: `update_readme` performs no check that the start marker precedes
the end marker: when the end marker occurs first (at `e`, before the start
marker at `s`), it still writes and returns success, and the written file
contains the span of the input between positions `e` and `s` twice — once
ending the preserved prefix and once beginning the preserved suffix. -/
theorem update_readme_no_order_check (content newSection : List Char) (s e : Nat)
    (hs : strFind content startMarker = some s)
    (he : strFind content endMarker = some e)
    (hlt : e < s) :
    update_readme content newSection =
      some ((content.take e ++ (content.drop e).take (s - e)) ++
        (newSection ++ sectionSep) ++
        ((content.drop e).take (s - e) ++ content.drop s)) := by
  rw [update_readme_eq content newSection s e hs he]
  have h1 : content.take s = content.take e ++ (content.drop e).take (s - e) := by
    have hse : s = e + (s - e) := by omega
    conv_lhs => rw [hse]
    exact List.take_add content e (s - e)
  have h2 : content.drop e = (content.drop e).take (s - e) ++ content.drop s := by
    conv_lhs => rw [← List.take_append_drop (s - e) (content.drop e)]
    congr 1
    rw [List.drop_drop]
    congr 1
    omega
  set b := (content.drop e).take (s - e) with hb
  rw [h1, h2]
  simp [List.append_assoc]

/-- Witness for C10 on `demoReadmeRev`: the duplicated span is the first 30
characters (the end marker and the three characters after it). -/
theorem update_readme_no_order_check_witness :
    update_readme demoReadmeRev "NEW".data =
      some ((demoReadmeRev.take 0 ++ (demoReadmeRev.drop 0).take (30 - 0)) ++
        ("NEW".data ++ sectionSep) ++
        ((demoReadmeRev.drop 0).take (30 - 0) ++ demoReadmeRev.drop 30)) :=
  update_readme_no_order_check demoReadmeRev "NEW".data 30 0
    (by decide) (by decide) (by decide)
